import Mathlib

/-!
Verification of the aioracle forecast-aggregation engine.

This file gives a shallow embedding of the engine found in
`src/aioracle/backend.py`, `src/aioracle/scraper.py` and
`src/aioracle/models.py`, and proves the specified properties about it.

Modelling conventions:
* Python floats carried by data records (`median_year`) are modelled as `ℚ`
  so that validation and classification stay decidable; the aggregation and
  statistics pipeline, which uses `sqrt`, runs over `ℝ`.
* `datetime.now()` is abstracted into explicit parameters: the current year
  (`currentYear`), a rational wall-clock time for the cache (`now`), and an
  ISO timestamp string (`nowTimestamp`).
* Python exceptions become an `Except` result: `DataFetchError` and
  `DataValidationError` (the latter carrying the observed/required counts
  that the Python message names).
* The adapter layer is abstracted by the list `live` that a fresh fetch
  would return (adapters never raise: a failing adapter contributes `[]`).
  Whether the adapters were actually invoked is made observable by the
  `invokedAdapters` flag of `FetchResult`.
-/

namespace AIOracle

/-- `ForecastPoint` from `scraper.py`: one external forecast observation. -/
structure ForecastPoint where
  source : String
  question : String
  median_year : ℚ
  num_forecasters : ℤ
  url : String := ""
deriving DecidableEq, Repr

/-- `Prediction` from `models.py`: the immutable output artifact. -/
structure Prediction where
  timestamp : String
  agi_date : String
  agi_type : String
  agi_prob : ℝ
  asi_date : String
  asi_context : String
  singularity_date : String
  singularity_prob : ℝ

/-- The error taxonomy of `backend.py`: `DataFetchError` and
`DataValidationError` (the latter's message names got/need counts). -/
inductive PredictionErr where
  | dataFetch : PredictionErr
  | dataValidation (got need : ℕ) : PredictionErr
deriving DecidableEq, Repr

/-! ### Aggregator (`scraper.aggregate_forecasts`) -/

/-- Weight of one point: `max(1, p.num_forecasters) ** 0.5`. -/
noncomputable def pointWeight (p : ForecastPoint) : ℝ :=
  Real.sqrt ((max 1 p.num_forecasters : ℤ) : ℝ)

/-- One iteration of the accumulation loop of `aggregate_forecasts`:
`weighted_sum += median_year * w; total_weight += w`. -/
noncomputable def aggStep (acc : ℝ × ℝ) (p : ForecastPoint) : ℝ × ℝ :=
  (acc.1 + (p.median_year : ℝ) * pointWeight p, acc.2 + pointWeight p)

/-- The `(weighted_sum, total_weight)` pair computed by the loop. -/
noncomputable def aggSums (pts : List ForecastPoint) : ℝ × ℝ :=
  pts.foldl aggStep (0, 0)

/-- `scraper.aggregate_forecasts`: weighted mean of `median_year` with
weight `sqrt(max(1, num_forecasters))`; `current_year + 25` on an empty
list; first point's `median_year` when the total weight is zero. -/
noncomputable def aggregate_forecasts (currentYear : ℕ) (pts : List ForecastPoint) : ℝ :=
  match pts with
  | [] => (currentYear : ℝ) + 25
  | p :: _ =>
    let s := aggSums pts
    if s.2 = 0 then (p.median_year : ℝ) else s.1 / s.2

/-- Specification-style weighted sum: `Σ median_year * weight`. -/
noncomputable def weightedSum (pts : List ForecastPoint) : ℝ :=
  (pts.map (fun p => (p.median_year : ℝ) * pointWeight p)).sum

/-- Specification-style total weight: `Σ weight`. -/
noncomputable def totalWeight (pts : List ForecastPoint) : ℝ :=
  (pts.map pointWeight).sum

/-- Minimum of `median_year` over the non-empty bucket `p :: rest`. -/
def minMedian (p : ForecastPoint) (rest : List ForecastPoint) : ℚ :=
  rest.foldl (fun acc q => min acc q.median_year) p.median_year

/-- Maximum of `median_year` over the non-empty bucket `p :: rest`. -/
def maxMedian (p : ForecastPoint) (rest : List ForecastPoint) : ℚ :=
  rest.foldl (fun acc q => max acc q.median_year) p.median_year

/-! ### Validator (`PredictionEngine._validate_point` / `_validate_data`) -/

/-- `PredictionEngine.MIN_VALID_YEAR`. -/
def MIN_VALID_YEAR : ℚ := 2025

/-- `PredictionEngine.MAX_VALID_YEAR`. -/
def MAX_VALID_YEAR : ℚ := 2200

/-- `PredictionEngine.MIN_FORECASTERS`. -/
def MIN_FORECASTERS : ℤ := 0

/-- `PredictionEngine._validate_point`. -/
def validPoint (p : ForecastPoint) : Bool :=
  if ¬(MIN_VALID_YEAR ≤ p.median_year ∧ p.median_year ≤ MAX_VALID_YEAR) then false
  else if p.num_forecasters < MIN_FORECASTERS then false
  else true

/-- `PredictionEngine._validate_data`: filter by `validPoint`, raise
`DataValidationError` when fewer than `minPts` survive. -/
def validateData (minPts : ℕ) (pts : List ForecastPoint) :
    Except PredictionErr (List ForecastPoint) :=
  let valid := pts.filter validPoint
  if valid.length < minPts then .error (.dataValidation valid.length minPts)
  else .ok valid

/-! ### Classifier (`ForecastClassifier`) -/

/-- `ForecastClassifier.AGI_KEYWORDS` (defined in the source but unused by
`classify`, which defaults to the agi bucket). -/
def AGI_KEYWORDS : List String :=
  ["agi", "artificial general intelligence", "human-level",
   "human level", "hlai", "general ai"]

/-- `ForecastClassifier.ASI_KEYWORDS`. -/
def ASI_KEYWORDS : List String :=
  ["asi", "superintelligence", "superintelligent",
   "transformative ai", "transformative artificial"]

/-- `ForecastClassifier.SINGULARITY_KEYWORDS`. -/
def SINGULARITY_KEYWORDS : List String :=
  ["singularity", "full automation", "technological singularity",
   "intelligence explosion", "recursive self-improvement"]

/-- Python `question.lower()` (ASCII case folding), as a character list. -/
def lowerString (s : String) : List Char :=
  s.toList.map Char.toLower

/-- Python `kw in q`: substring containment. -/
def containsKeyword (q : List Char) (kw : String) : Bool :=
  decide (kw.toList <:+: q)

/-- Python `any(kw in q for kw in kws)`. -/
def matchesAny (kws : List String) (q : List Char) : Bool :=
  kws.any (containsKeyword q)

/-- The three buckets returned by `ForecastClassifier.classify`. -/
structure Classified where
  agi : List ForecastPoint
  asi : List ForecastPoint
  singularity : List ForecastPoint
deriving DecidableEq, Repr

/-- One iteration of the classification loop: singularity keywords are
tested first, then asi keywords, else the point defaults to agi. -/
def classifyStep (c : Classified) (p : ForecastPoint) : Classified :=
  let ql := lowerString p.question
  if matchesAny SINGULARITY_KEYWORDS ql then
    { c with singularity := c.singularity ++ [p] }
  else if matchesAny ASI_KEYWORDS ql then
    { c with asi := c.asi ++ [p] }
  else
    { c with agi := c.agi ++ [p] }

/-- `ForecastClassifier.classify`. -/
def classify (pts : List ForecastPoint) : Classified :=
  pts.foldl classifyStep ⟨[], [], []⟩

/-- Per-point singularity test (used to state what `classify` does). -/
def isSingularityPoint (p : ForecastPoint) : Bool :=
  matchesAny SINGULARITY_KEYWORDS (lowerString p.question)

/-- Per-point asi test, after the singularity test failed. -/
def isAsiPoint (p : ForecastPoint) : Bool :=
  !isSingularityPoint p && matchesAny ASI_KEYWORDS (lowerString p.question)

/-- Per-point agi default: neither keyword set matched. -/
def isAgiPoint (p : ForecastPoint) : Bool :=
  !isSingularityPoint p && !matchesAny ASI_KEYWORDS (lowerString p.question)

/-! ### Confidence metrics (`ConfidenceMetrics`, `calculate_confidence_metrics`) -/

/-- `ConfidenceMetrics` with its derived `confidence_score`. -/
structure ConfidenceMetrics where
  mean_year : ℝ
  median_year : ℝ
  std_deviation : ℝ
  sample_size : ℕ
  source_diversity : ℕ
  confidence_score : ℝ

/-- `ConfidenceMetrics.__post_init__`: the score is the fixed weighted blend
of size, diversity and spread factors, scaled to 0-100. -/
noncomputable def mkConfidenceMetrics (mean med sd : ℝ) (n d : ℕ) : ConfidenceMetrics :=
  let size_factor := min 1 ((n : ℝ) / 50)
  let diversity_factor := min 1 ((d : ℝ) / 3)
  let spread_factor := max 0.3 (1 - sd / 30)
  ⟨mean, med, sd, n, d,
    (size_factor * 0.3 + diversity_factor * 0.3 + spread_factor * 0.4) * 100⟩

/-- `statistics.mean`. -/
noncomputable def listMean (l : List ℝ) : ℝ := l.sum / l.length

/-- Ascending sort, as `sorted(data)` inside `statistics.median`. -/
noncomputable def sortedReals (l : List ℝ) : List ℝ :=
  l.mergeSort (fun a b => decide (a ≤ b))

/-- `statistics.median`: middle element for odd length, mean of the two
middle elements for even length (0 on the empty list, which the engine
never reaches because it guards the empty bucket). -/
noncomputable def listMedian (l : List ℝ) : ℝ :=
  let s := sortedReals l
  let n := s.length
  if n % 2 = 1 then s.getD (n / 2) 0
  else (s.getD (n / 2 - 1) 0 + s.getD (n / 2) 0) / 2

/-- `statistics.stdev`: sample standard deviation (only applied by the
engine when the list has more than one element). -/
noncomputable def listStdev (l : List ℝ) : ℝ :=
  Real.sqrt ((l.map (fun x => (x - listMean l) ^ 2)).sum / ((l.length : ℝ) - 1))

/-- `PredictionEngine.calculate_confidence_metrics`. -/
noncomputable def calculate_confidence_metrics (pts : List ForecastPoint) :
    ConfidenceMetrics :=
  match pts with
  | [] => mkConfidenceMetrics 0 0 0 0 0
  | _ :: _ =>
    let years := pts.map (fun p => (p.median_year : ℝ))
    let sources := (pts.map (fun p => p.source)).dedup
    let sd := if 1 < years.length then listStdev years else 0
    mkConfidenceMetrics (listMean years) (listMedian years) sd pts.length sources.length

/-- `PredictionEngine._calculate_probability`. -/
noncomputable def calculate_probability (m : ConfidenceMetrics) : ℝ :=
  if m.sample_size < 2 then 60 else max 40 (min 95 m.confidence_score)

/-! ### Consensus type and takeoff scenario -/

/-- `ConsensusType`. -/
inductive ConsensusType where
  | crowdExpert | predictionMarket | expertSurvey | singleSource
deriving DecidableEq, Repr

/-- The `.value` display string of each `ConsensusType`. -/
def ConsensusType.val : ConsensusType → String
  | .crowdExpert => "Crowd + Expert Consensus"
  | .predictionMarket => "Prediction Market Consensus"
  | .expertSurvey => "Expert Survey"
  | .singleSource => "Single Source Estimate"

/-- `PredictionEngine._determine_consensus_type`. -/
def determine_consensus_type (pts : List ForecastPoint) : ConsensusType :=
  let sources := (pts.map (fun p => p.source)).dedup
  if sources.length = 0 then .singleSource
  else if sources.length = 1 then
    if sources.contains "Metaculus" then .predictionMarket else .expertSurvey
  else if sources.contains "Metaculus" then .crowdExpert
  else .expertSurvey

/-- `TakeoffScenario`. -/
inductive TakeoffScenario where
  | rapid | moderate | slow
deriving DecidableEq, Repr

/-- The `.value` display string of each `TakeoffScenario`. -/
def TakeoffScenario.val : TakeoffScenario → String
  | .rapid => "Rapid Takeoff Scenario"
  | .moderate => "Moderate Transition"
  | .slow => "Slow Takeoff Scenario"

/-- `TakeoffScenario.from_year_gap`. -/
noncomputable def TakeoffScenario.from_year_gap (gap : ℝ) : TakeoffScenario :=
  if gap < 5 then .rapid else if gap < 15 then .moderate else .slow

/-! ### Year-to-date conversion (`PredictionEngine._year_to_date_string`) -/

/-- Python `int()` on a real: truncation toward zero. -/
noncomputable def pyInt (x : ℝ) : ℤ := if 0 ≤ x then ⌊x⌋ else ⌈x⌉

/-- Python `round(x, 1)` (tie behaviour of binary floats abstracted to
rounding half up on the scaled value). -/
noncomputable def pyRound1 (x : ℝ) : ℝ := ((round (x * 10) : ℤ) : ℝ) / 10

/-- Python `f"{n:02d}"` for the month field. -/
def pad2 (n : ℤ) : String :=
  if 0 ≤ n ∧ n < 10 then "0" ++ toString n else toString n

/-- The (year, clamped month) pair computed by `_year_to_date_string`. -/
noncomputable def year_to_ym (year : ℝ) : ℤ × ℤ :=
  let yr := pyInt year
  let month := pyInt ((year - (yr : ℝ)) * 12) + 1
  (yr, max 1 (min 12 month))

/-- Rendering of a (year, month) pair as `f"{yr}-{month:02d}-01"`. -/
def ymString (ym : ℤ × ℤ) : String :=
  toString ym.1 ++ "-" ++ pad2 ym.2 ++ "-01"

/-- `PredictionEngine._year_to_date_string`. -/
noncomputable def year_to_date_string (year : ℝ) : String :=
  ymString (year_to_ym year)

/-- Calendar order on (year, month) pairs. -/
def dateLE (a b : ℤ × ℤ) : Prop :=
  a.1 < b.1 ∨ (a.1 = b.1 ∧ a.2 ≤ b.2)

/-! ### Ordering enforcement and prediction generation -/

/-- The ordering adjustment of `generate_prediction`: force
`asi = agi + 5` when `asi ≤ agi`, then `sing = asi + 15` when
`sing ≤ asi` (using the possibly adjusted asi). -/
noncomputable def fixYears (agi asi sing : ℝ) : ℝ × ℝ × ℝ :=
  let asiFixed := if asi ≤ agi then agi + 5 else asi
  let singFixed := if sing ≤ asiFixed then asiFixed + 15 else sing
  (agi, asiFixed, singFixed)

/-- The agi bucket after the fallback of `generate_prediction`: an empty
agi bucket inherits all validated points. -/
def agiBucket (points : List ForecastPoint) : List ForecastPoint :=
  if (classify points).agi = [] then points else (classify points).agi

/-- The asi bucket after its fallback: an empty asi bucket inherits the
(possibly fallen-back) agi bucket. -/
def asiBucket (points : List ForecastPoint) : List ForecastPoint :=
  if (classify points).asi = [] then agiBucket points else (classify points).asi

/-- The singularity bucket after its fallback. -/
def singBucket (points : List ForecastPoint) : List ForecastPoint :=
  if (classify points).singularity = [] then agiBucket points
  else (classify points).singularity

/-- The body of `generate_prediction` after validation: classify with
fallbacks, aggregate each bucket, enforce the year ordering, score and
assemble the `Prediction` record. -/
noncomputable def buildPrediction (currentYear : ℕ) (nowTimestamp : String)
    (points : List ForecastPoint) : Prediction :=
  let agiPoints := agiBucket points
  let asiPoints := asiBucket points
  let singPoints := singBucket points
  let ys := fixYears (aggregate_forecasts currentYear agiPoints)
    (aggregate_forecasts currentYear asiPoints)
    (aggregate_forecasts currentYear singPoints)
  let agiMetrics := calculate_confidence_metrics agiPoints
  let singMetrics := calculate_confidence_metrics singPoints
  { timestamp := nowTimestamp
    agi_date := year_to_date_string ys.1
    agi_type := (determine_consensus_type agiPoints).val
    agi_prob := pyRound1 (calculate_probability agiMetrics)
    asi_date := year_to_date_string ys.2.1
    asi_context := (TakeoffScenario.from_year_gap (ys.2.1 - ys.1)).val
    singularity_date := year_to_date_string ys.2.2
    singularity_prob := pyRound1 (calculate_probability singMetrics) }

/-- `PredictionEngine.generate_prediction`, after the data has been
fetched: validate, then build the prediction; a validation error
propagates to the caller. -/
noncomputable def generate_prediction_from_points (minPts : ℕ) (currentYear : ℕ)
    (nowTimestamp : String) (raw : List ForecastPoint) :
    Except PredictionErr Prediction :=
  match validateData minPts raw with
  | .error e => .error e
  | .ok points => .ok (buildPrediction currentYear nowTimestamp points)

/-! ### Cache layer (`CacheEntry`, `PredictionEngine.fetch_data`) -/

/-- `CacheEntry`: last fetched data plus the time it was stored. -/
structure CacheEntry where
  data : List ForecastPoint
  timestamp : ℚ
deriving DecidableEq, Repr

/-- `CacheEntry.is_expired`: the entry's age strictly exceeds the TTL. -/
def CacheEntry.is_expired (e : CacheEntry) (ttlSeconds : ℤ) (now : ℚ) : Bool :=
  decide ((now - e.timestamp) > (ttlSeconds : ℚ))

/-- Outcome of one `fetch_data` call: the returned data or error, the cache
state after the call, and whether the adapters were invoked. -/
structure FetchResult where
  result : Except PredictionErr (List ForecastPoint)
  cache : Option CacheEntry
  invokedAdapters : Bool
deriving Repr

/-- The fresh-fetch path of `fetch_data`: invoke the adapters; an empty
result is a `DataFetchError` and is never cached; otherwise cache the data
only when the TTL is positive. -/
def fetchFresh (ttl : ℤ) (now : ℚ) (live : List ForecastPoint)
    (cache : Option CacheEntry) : FetchResult :=
  if live = [] then ⟨.error .dataFetch, cache, true⟩
  else ⟨.ok live, if 0 < ttl then some ⟨live, now⟩ else cache, true⟩

/-- `PredictionEngine.fetch_data`: serve from a fresh enough cache entry
when not forcing and caching is enabled, else fetch live. -/
def fetch_data (ttl : ℤ) (force : Bool) (now : ℚ) (live : List ForecastPoint)
    (cache : Option CacheEntry) : FetchResult :=
  match cache with
  | some e =>
    if force = false ∧ 0 < ttl ∧ e.is_expired ttl now = false then
      ⟨.ok e.data, some e, false⟩
    else fetchFresh ttl now live (some e)
  | none => fetchFresh ttl now live none

/-- `PredictionEngine.generate_prediction` including the fetch step:
returns the result together with the cache state after the call. -/
noncomputable def generate_prediction (ttl : ℤ) (minPts : ℕ) (force : Bool)
    (now : ℚ) (live : List ForecastPoint) (cache : Option CacheEntry)
    (currentYear : ℕ) (nowTimestamp : String) :
    Except PredictionErr Prediction × Option CacheEntry :=
  let f := fetch_data ttl force now live cache
  match f.result with
  | .error e => (.error e, f.cache)
  | .ok pts => (generate_prediction_from_points minPts currentYear nowTimestamp pts, f.cache)

/-- A keyword-free forecast point used as a concrete example input. -/
def exPoint : ForecastPoint :=
  { source := "AI Experts", question := "when will human ai arrive",
    median_year := 2030, num_forecasters := 1, url := "" }

/-- A forecast point whose question contains both a singularity keyword
("recursive self-improvement") and an asi keyword ("superintelligence"). -/
def bothKwPoint : ForecastPoint :=
  { source := "AI Experts",
    question := "Will recursive self-improvement produce superintelligence?",
    median_year := 2030, num_forecasters := 1, url := "" }

/-- The prediction the engine produces from the single input `exPoint`. -/
def exPrediction (ts : String) : Prediction :=
  { timestamp := ts
    agi_date := "2030-01-01"
    agi_type := "Expert Survey"
    agi_prob := 60
    asi_date := "2035-01-01"
    asi_context := "Moderate Transition"
    singularity_date := "2050-01-01"
    singularity_prob := 60 }

/-! ### Aggregation lemmas -/

theorem one_le_pointWeight (p : ForecastPoint) : 1 ≤ pointWeight p := by
  have h1 : (1 : ℝ) ≤ ((max 1 p.num_forecasters : ℤ) : ℝ) := by
    exact_mod_cast le_max_left 1 p.num_forecasters
  calc (1 : ℝ) = Real.sqrt 1 := Real.sqrt_one.symm
    _ ≤ pointWeight p := Real.sqrt_le_sqrt h1

theorem pointWeight_nonneg (p : ForecastPoint) : 0 ≤ pointWeight p :=
  le_trans zero_le_one (one_le_pointWeight p)

theorem aggSums_loop (pts : List ForecastPoint) :
    ∀ a b : ℝ, pts.foldl aggStep (a, b) = (a + weightedSum pts, b + totalWeight pts) := by
  induction pts with
  | nil => intro a b; simp [weightedSum, totalWeight]
  | cons p rest ih =>
    intro a b
    simp only [List.foldl_cons, aggStep, ih, weightedSum, totalWeight, List.map_cons,
      List.sum_cons]
    rw [Prod.mk.injEq]
    constructor <;> ring

theorem aggSums_eq (pts : List ForecastPoint) :
    aggSums pts = (weightedSum pts, totalWeight pts) := by
  simpa using aggSums_loop pts 0 0

theorem totalWeight_nonneg (pts : List ForecastPoint) : 0 ≤ totalWeight pts := by
  induction pts with
  | nil => simp [totalWeight]
  | cons p rest ih =>
    simp only [totalWeight, List.map_cons, List.sum_cons]
    exact add_nonneg (pointWeight_nonneg p) ih

theorem totalWeight_cons_pos (p : ForecastPoint) (rest : List ForecastPoint) :
    0 < totalWeight (p :: rest) := by
  simp only [totalWeight, List.map_cons, List.sum_cons]
  have := one_le_pointWeight p
  have := totalWeight_nonneg rest
  simp only [totalWeight] at this
  linarith

theorem mul_totalWeight_le_weightedSum (lo : ℝ) (pts : List ForecastPoint)
    (h : ∀ q ∈ pts, lo ≤ (q.median_year : ℝ)) :
    lo * totalWeight pts ≤ weightedSum pts := by
  induction pts with
  | nil => simp [weightedSum, totalWeight]
  | cons p rest ih =>
    simp only [weightedSum, totalWeight, List.map_cons, List.sum_cons] at *
    have hp : lo ≤ (p.median_year : ℝ) := h p (List.mem_cons_self p rest)
    have h1 : lo * pointWeight p ≤ (p.median_year : ℝ) * pointWeight p :=
      mul_le_mul_of_nonneg_right hp (pointWeight_nonneg p)
    have h2 := ih (fun q hq => h q (List.mem_cons_of_mem p hq))
    calc lo * (pointWeight p + (rest.map pointWeight).sum)
        = lo * pointWeight p + lo * (rest.map pointWeight).sum := by ring
      _ ≤ (p.median_year : ℝ) * pointWeight p
          + (rest.map (fun q => (q.median_year : ℝ) * pointWeight q)).sum := by
          exact add_le_add h1 h2

theorem weightedSum_le_mul_totalWeight (hi : ℝ) (pts : List ForecastPoint)
    (h : ∀ q ∈ pts, (q.median_year : ℝ) ≤ hi) :
    weightedSum pts ≤ hi * totalWeight pts := by
  induction pts with
  | nil => simp [weightedSum, totalWeight]
  | cons p rest ih =>
    simp only [weightedSum, totalWeight, List.map_cons, List.sum_cons] at *
    have hp : (p.median_year : ℝ) ≤ hi := h p (List.mem_cons_self p rest)
    have h1 : (p.median_year : ℝ) * pointWeight p ≤ hi * pointWeight p :=
      mul_le_mul_of_nonneg_right hp (pointWeight_nonneg p)
    have h2 := ih (fun q hq => h q (List.mem_cons_of_mem p hq))
    calc (p.median_year : ℝ) * pointWeight p
          + (rest.map (fun q => (q.median_year : ℝ) * pointWeight q)).sum
        ≤ hi * pointWeight p + hi * (rest.map pointWeight).sum := add_le_add h1 h2
      _ = hi * (pointWeight p + (rest.map pointWeight).sum) := by ring

theorem aggregate_cons_eq (currentYear : ℕ) (p : ForecastPoint)
    (rest : List ForecastPoint) :
    aggregate_forecasts currentYear (p :: rest) =
      weightedSum (p :: rest) / totalWeight (p :: rest) := by
  have hpos := totalWeight_cons_pos p rest
  simp only [aggregate_forecasts, aggSums_eq]
  rw [if_neg (by exact ne_of_gt hpos)]

theorem le_aggregate (currentYear : ℕ) (p : ForecastPoint)
    (rest : List ForecastPoint) (lo : ℝ)
    (h : ∀ q ∈ p :: rest, lo ≤ (q.median_year : ℝ)) :
    lo ≤ aggregate_forecasts currentYear (p :: rest) := by
  rw [aggregate_cons_eq]
  have hpos := totalWeight_cons_pos p rest
  rw [le_div_iff₀ hpos]
  exact mul_totalWeight_le_weightedSum lo (p :: rest) h

theorem aggregate_le (currentYear : ℕ) (p : ForecastPoint)
    (rest : List ForecastPoint) (hi : ℝ)
    (h : ∀ q ∈ p :: rest, (q.median_year : ℝ) ≤ hi) :
    aggregate_forecasts currentYear (p :: rest) ≤ hi := by
  rw [aggregate_cons_eq]
  have hpos := totalWeight_cons_pos p rest
  rw [div_le_iff₀ hpos]
  calc weightedSum (p :: rest) ≤ hi * totalWeight (p :: rest) :=
        weightedSum_le_mul_totalWeight hi (p :: rest) h
    _ = hi * totalWeight (p :: rest) := rfl

theorem aggregate_nonneg (currentYear : ℕ) (pts : List ForecastPoint)
    (h : ∀ q ∈ pts, (0 : ℝ) ≤ (q.median_year : ℝ)) :
    0 ≤ aggregate_forecasts currentYear pts := by
  match pts with
  | [] =>
    simp only [aggregate_forecasts]
    positivity
  | p :: rest => exact le_aggregate currentYear p rest 0 h

/-! ### Minimum / maximum fold lemmas -/

theorem foldl_min_le_init (rest : List ForecastPoint) :
    ∀ a : ℚ, rest.foldl (fun acc q => min acc q.median_year) a ≤ a := by
  induction rest with
  | nil => intro a; simp
  | cons q rest ih =>
    intro a
    simp only [List.foldl_cons]
    exact le_trans (ih (min a q.median_year)) (min_le_left a q.median_year)

theorem foldl_min_le_mem (rest : List ForecastPoint) :
    ∀ (a : ℚ) (q : ForecastPoint), q ∈ rest →
      rest.foldl (fun acc r => min acc r.median_year) a ≤ q.median_year := by
  induction rest with
  | nil => intro a q hq; cases hq
  | cons r rest ih =>
    intro a q hq
    simp only [List.foldl_cons]
    rcases List.mem_cons.mp hq with h | h
    · subst h
      exact le_trans (foldl_min_le_init rest (min a q.median_year))
        (min_le_right a q.median_year)
    · exact ih (min a r.median_year) q h

theorem minMedian_le (p : ForecastPoint) (rest : List ForecastPoint) :
    ∀ q ∈ p :: rest, minMedian p rest ≤ q.median_year := by
  intro q hq
  rcases List.mem_cons.mp hq with h | h
  · subst h; exact foldl_min_le_init rest q.median_year
  · exact foldl_min_le_mem rest p.median_year q h

theorem init_le_foldl_max (rest : List ForecastPoint) :
    ∀ a : ℚ, a ≤ rest.foldl (fun acc q => max acc q.median_year) a := by
  induction rest with
  | nil => intro a; simp
  | cons q rest ih =>
    intro a
    simp only [List.foldl_cons]
    exact le_trans (le_max_left a q.median_year) (ih (max a q.median_year))

theorem mem_le_foldl_max (rest : List ForecastPoint) :
    ∀ (a : ℚ) (q : ForecastPoint), q ∈ rest →
      q.median_year ≤ rest.foldl (fun acc r => max acc r.median_year) a := by
  induction rest with
  | nil => intro a q hq; cases hq
  | cons r rest ih =>
    intro a q hq
    simp only [List.foldl_cons]
    rcases List.mem_cons.mp hq with h | h
    · subst h
      exact le_trans (le_max_right a q.median_year)
        (init_le_foldl_max rest (max a q.median_year))
    · exact ih (max a r.median_year) q h

theorem le_maxMedian (p : ForecastPoint) (rest : List ForecastPoint) :
    ∀ q ∈ p :: rest, q.median_year ≤ maxMedian p rest := by
  intro q hq
  rcases List.mem_cons.mp hq with h | h
  · subst h; exact init_le_foldl_max rest q.median_year
  · exact mem_le_foldl_max rest p.median_year q h

/-! ### Classifier lemmas -/

theorem classify_foldl (pts : List ForecastPoint) :
    ∀ c : Classified,
      (pts.foldl classifyStep c).agi = c.agi ++ pts.filter isAgiPoint ∧
      (pts.foldl classifyStep c).asi = c.asi ++ pts.filter isAsiPoint ∧
      (pts.foldl classifyStep c).singularity =
        c.singularity ++ pts.filter isSingularityPoint := by
  induction pts with
  | nil => intro c; simp
  | cons p rest ih =>
    intro c
    simp only [List.foldl_cons]
    by_cases hs : isSingularityPoint p
    · have hstep : classifyStep c p = { c with singularity := c.singularity ++ [p] } := by
        have hs' : matchesAny SINGULARITY_KEYWORDS (lowerString p.question) = true := hs
        simp [classifyStep, hs']
      rw [hstep]
      obtain ⟨h1, h2, h3⟩ := ih { c with singularity := c.singularity ++ [p] }
      refine ⟨?_, ?_, ?_⟩
      · rw [h1]
        have : isAgiPoint p = false := by
          simp [isAgiPoint, hs]
        simp [List.filter_cons, this]
      · rw [h2]
        have : isAsiPoint p = false := by
          simp [isAsiPoint, hs]
        simp [List.filter_cons, this]
      · rw [h3]
        simp [List.filter_cons, hs]
    · by_cases ha : matchesAny ASI_KEYWORDS (lowerString p.question)
      · have hstep : classifyStep c p = { c with asi := c.asi ++ [p] } := by
          simp only [isSingularityPoint, Bool.not_eq_true] at hs
          simp [classifyStep, hs, ha]
        rw [hstep]
        obtain ⟨h1, h2, h3⟩ := ih { c with asi := c.asi ++ [p] }
        have hasi : isAsiPoint p = true := by
          simp [isAsiPoint, hs, ha]
        refine ⟨?_, ?_, ?_⟩
        · rw [h1]
          have : isAgiPoint p = false := by
            simp [isAgiPoint, ha]
          simp [List.filter_cons, this]
        · rw [h2]
          simp [List.filter_cons, hasi]
        · rw [h3]
          have : isSingularityPoint p = false := by
            simpa using hs
          simp [List.filter_cons, this]
      · have hstep : classifyStep c p = { c with agi := c.agi ++ [p] } := by
          simp only [isSingularityPoint, Bool.not_eq_true] at hs
          simp [classifyStep, hs, ha]
        rw [hstep]
        obtain ⟨h1, h2, h3⟩ := ih { c with agi := c.agi ++ [p] }
        have hagi : isAgiPoint p = true := by
          simp [isAgiPoint, hs, ha]
        refine ⟨?_, ?_, ?_⟩
        · rw [h1]
          simp [List.filter_cons, hagi]
        · rw [h2]
          have : isAsiPoint p = false := by
            simp [isAsiPoint, ha]
          simp [List.filter_cons, this]
        · rw [h3]
          have : isSingularityPoint p = false := by
            simpa using hs
          simp [List.filter_cons, this]

theorem classify_agi_eq (pts : List ForecastPoint) :
    (classify pts).agi = pts.filter isAgiPoint := by
  simpa using (classify_foldl pts ⟨[], [], []⟩).1

theorem classify_asi_eq (pts : List ForecastPoint) :
    (classify pts).asi = pts.filter isAsiPoint := by
  simpa using (classify_foldl pts ⟨[], [], []⟩).2.1

theorem classify_singularity_eq (pts : List ForecastPoint) :
    (classify pts).singularity = pts.filter isSingularityPoint := by
  simpa using (classify_foldl pts ⟨[], [], []⟩).2.2

/-! ### Year-to-date lemmas -/

theorem pyInt_of_nonneg {x : ℝ} (h : 0 ≤ x) : pyInt x = ⌊x⌋ := by
  simp [pyInt, h]

theorem year_to_ym_of_nonneg {x : ℝ} (h : 0 ≤ x) :
    year_to_ym x = (⌊x⌋, max 1 (min 12 (⌊(x - (⌊x⌋ : ℝ)) * 12⌋ + 1))) := by
  have hfr : 0 ≤ x - (⌊x⌋ : ℝ) := by
    have := Int.floor_le x
    linarith
  have hfr12 : (0 : ℝ) ≤ (x - (⌊x⌋ : ℝ)) * 12 := by positivity
  simp only [year_to_ym, pyInt_of_nonneg h, pyInt_of_nonneg hfr12]

theorem month_bounds (m : ℤ) : 1 ≤ max 1 (min 12 m) ∧ max 1 (min 12 m) ≤ 12 := by
  constructor
  · exact le_max_left 1 (min 12 m)
  · apply max_le (by norm_num)
    exact min_le_left 12 m

theorem dateLE_year_to_ym {y1 y2 : ℝ} (h0 : 0 ≤ y1) (h : y1 ≤ y2) :
    dateLE (year_to_ym y1) (year_to_ym y2) := by
  have h02 : 0 ≤ y2 := le_trans h0 h
  rw [year_to_ym_of_nonneg h0, year_to_ym_of_nonneg h02]
  have hfl : ⌊y1⌋ ≤ ⌊y2⌋ := Int.floor_le_floor h
  rcases lt_or_eq_of_le hfl with hlt | heq
  · exact Or.inl hlt
  · refine Or.inr ⟨heq, ?_⟩
    have hfr : y1 - (⌊y1⌋ : ℝ) ≤ y2 - (⌊y2⌋ : ℝ) := by
      rw [← heq]; linarith
    have h12 : (y1 - (⌊y1⌋ : ℝ)) * 12 ≤ (y2 - (⌊y2⌋ : ℝ)) * 12 := by linarith
    have hm : ⌊(y1 - (⌊y1⌋ : ℝ)) * 12⌋ ≤ ⌊(y2 - (⌊y2⌋ : ℝ)) * 12⌋ :=
      Int.floor_le_floor h12
    exact max_le_max (le_refl 1) (min_le_min (le_refl 12) (by omega))

/-! ### Ordering-fix lemmas -/

theorem fixYears_fst (a s g : ℝ) : (fixYears a s g).1 = a := rfl

theorem fixYears_lt₁ (a s g : ℝ) : a < (fixYears a s g).2.1 := by
  simp only [fixYears]
  by_cases h : s ≤ a
  · rw [if_pos h]; linarith
  · rw [if_neg h]; linarith [not_le.mp h]

theorem fixYears_lt₂ (a s g : ℝ) : (fixYears a s g).2.1 < (fixYears a s g).2.2 := by
  simp only [fixYears]
  by_cases h : s ≤ a
  · rw [if_pos h]
    by_cases h2 : g ≤ a + 5
    · rw [if_pos h2]; linarith
    · rw [if_neg h2]; linarith [not_le.mp h2]
  · rw [if_neg h]
    by_cases h2 : g ≤ s
    · rw [if_pos h2]; linarith
    · rw [if_neg h2]; linarith [not_le.mp h2]

/-! ### Validation lemmas -/

theorem validPoint_iff (p : ForecastPoint) :
    validPoint p = true ↔
      (2025 ≤ p.median_year ∧ p.median_year ≤ 2200 ∧ 0 ≤ p.num_forecasters) := by
  unfold validPoint MIN_VALID_YEAR MAX_VALID_YEAR MIN_FORECASTERS
  by_cases h1 : (2025 : ℚ) ≤ p.median_year ∧ p.median_year ≤ (2200 : ℚ)
  · by_cases h2 : p.num_forecasters < 0
    · rw [if_neg (not_not.mpr h1), if_pos h2]
      simp only [Bool.false_eq_true, false_iff]
      rintro ⟨_, _, hc⟩
      exact (not_le.mpr h2) hc
    · rw [if_neg (not_not.mpr h1), if_neg h2]
      simp only [true_iff]
      exact ⟨h1.1, h1.2, not_lt.mp h2⟩
  · rw [if_pos h1]
    simp only [Bool.false_eq_true, false_iff]
    rintro ⟨ha, hb, _⟩
    exact h1 ⟨ha, hb⟩

theorem validateData_ok_eq {minPts : ℕ} {raw points : List ForecastPoint}
    (h : validateData minPts raw = .ok points) :
    points = raw.filter validPoint := by
  by_cases hl : (raw.filter validPoint).length < minPts
  · simp [validateData, hl] at h
  · simp [validateData, hl] at h
    exact h.symm

theorem generate_from_points_ok {minPts currentYear : ℕ} {ts : String}
    {raw : List ForecastPoint} {pred : Prediction}
    (h : generate_prediction_from_points minPts currentYear ts raw = .ok pred) :
    ∃ points, validateData minPts raw = .ok points ∧
      pred = buildPrediction currentYear ts points := by
  cases hv : validateData minPts raw with
  | error e => simp [generate_prediction_from_points, hv] at h
  | ok points =>
    simp [generate_prediction_from_points, hv] at h
    exact ⟨points, rfl, h.symm⟩

/-! ### Bucket membership lemmas -/

theorem mem_agiBucket {points : List ForecastPoint} {q : ForecastPoint}
    (h : q ∈ agiBucket points) : q ∈ points := by
  by_cases ha : (classify points).agi = []
  · simpa [agiBucket, ha] using h
  · rw [agiBucket, if_neg ha, classify_agi_eq] at h
    exact List.mem_of_mem_filter h

theorem mem_asiBucket {points : List ForecastPoint} {q : ForecastPoint}
    (h : q ∈ asiBucket points) : q ∈ points := by
  by_cases ha : (classify points).asi = []
  · rw [asiBucket, if_pos ha] at h
    exact mem_agiBucket h
  · rw [asiBucket, if_neg ha, classify_asi_eq] at h
    exact List.mem_of_mem_filter h

theorem mem_singBucket {points : List ForecastPoint} {q : ForecastPoint}
    (h : q ∈ singBucket points) : q ∈ points := by
  by_cases ha : (classify points).singularity = []
  · rw [singBucket, if_pos ha] at h
    exact mem_agiBucket h
  · rw [singBucket, if_neg ha, classify_singularity_eq] at h
    exact List.mem_of_mem_filter h

/-! ### Metrics lemmas -/

theorem mk_confidence_score (mean med sd : ℝ) (n d : ℕ) :
    (mkConfidenceMetrics mean med sd n d).confidence_score =
      100 * (0.3 * min 1 ((n : ℝ) / 50) + 0.3 * min 1 ((d : ℝ) / 3)
        + 0.4 * max 0.3 (1 - sd / 30)) := by
  simp only [mkConfidenceMetrics]
  ring

theorem mk_score_bounds (mean med sd : ℝ) (n d : ℕ) (hsd : 0 ≤ sd) :
    0 ≤ (mkConfidenceMetrics mean med sd n d).confidence_score ∧
      (mkConfidenceMetrics mean med sd n d).confidence_score ≤ 100 := by
  simp only [mkConfidenceMetrics]
  have ha0 : (0 : ℝ) ≤ min 1 ((n : ℝ) / 50) := le_min (by norm_num) (by positivity)
  have ha1 : min 1 ((n : ℝ) / 50) ≤ 1 := min_le_left _ _
  have hb0 : (0 : ℝ) ≤ min 1 ((d : ℝ) / 3) := le_min (by norm_num) (by positivity)
  have hb1 : min 1 ((d : ℝ) / 3) ≤ 1 := min_le_left _ _
  have hc0 : (0 : ℝ) ≤ max 0.3 (1 - sd / 30) :=
    le_trans (by norm_num) (le_max_left (0.3 : ℝ) (1 - sd / 30))
  have hc1 : max 0.3 (1 - sd / 30) ≤ 1 := by
    apply max_le (by norm_num)
    have : 0 ≤ sd / 30 := by positivity
    linarith
  constructor <;> nlinarith

theorem mk_sample_size (mean med sd : ℝ) (n d : ℕ) :
    (mkConfidenceMetrics mean med sd n d).sample_size = n := rfl

theorem mk_source_diversity (mean med sd : ℝ) (n d : ℕ) :
    (mkConfidenceMetrics mean med sd n d).source_diversity = d := rfl

theorem mk_std_deviation (mean med sd : ℝ) (n d : ℕ) :
    (mkConfidenceMetrics mean med sd n d).std_deviation = sd := rfl

theorem calc_metrics_repr (pts : List ForecastPoint) :
    ∃ mean med sd, 0 ≤ sd ∧
      calculate_confidence_metrics pts =
        mkConfidenceMetrics mean med sd pts.length
          ((pts.map (fun p => p.source)).dedup).length := by
  match pts with
  | [] => exact ⟨0, 0, 0, le_refl 0, rfl⟩
  | p :: rest =>
    have hrepr : calculate_confidence_metrics (p :: rest) =
        mkConfidenceMetrics
          (listMean ((p :: rest).map (fun q => (q.median_year : ℝ))))
          (listMedian ((p :: rest).map (fun q => (q.median_year : ℝ))))
          (if 1 < ((p :: rest).map (fun q => (q.median_year : ℝ))).length
            then listStdev ((p :: rest).map (fun q => (q.median_year : ℝ))) else 0)
          (p :: rest).length ((p :: rest).map (fun q => q.source)).dedup.length := rfl
    refine ⟨_, _, _, ?_, hrepr⟩
    split
    · exact Real.sqrt_nonneg _
    · exact le_refl 0

/-! ### Concrete-evaluation helpers -/

theorem pyInt_of_neg {x : ℝ} (h : x < 0) : pyInt x = ⌈x⌉ := by
  simp [pyInt, not_le.mpr h]

theorem year_to_ym_eval {x : ℝ} {yr m : ℤ} (h0 : 0 ≤ x) (hfl : ⌊x⌋ = yr)
    (hm : ⌊(x - (yr : ℝ)) * 12⌋ + 1 = m) (h1 : 1 ≤ m) (h12 : m ≤ 12) :
    year_to_ym x = (yr, m) := by
  rw [year_to_ym_of_nonneg h0, hfl, hm]
  rw [Prod.mk.injEq]
  refine ⟨rfl, ?_⟩
  omega

/-! ### Cache lemmas -/

theorem fetchFresh_invoked (ttl : ℤ) (now : ℚ) (live : List ForecastPoint)
    (cache : Option CacheEntry) : (fetchFresh ttl now live cache).invokedAdapters = true := by
  rw [fetchFresh]
  split <;> rfl

theorem fetchFresh_cache_of_ttl_nonpos {ttl : ℤ} (h : ¬0 < ttl) (now : ℚ)
    (live : List ForecastPoint) (cache : Option CacheEntry) :
    (fetchFresh ttl now live cache).cache = cache := by
  rw [fetchFresh]
  split
  · rfl
  · simp [h]

/-! ### The claims -/

/-- C2: `aggregate_forecasts` returns the weighted arithmetic mean of the
points' `median_year` values with each point weighted by
`sqrt(max(1, num_forecasters))`; for the empty list it returns
`current_year + 25` (as a total function, it never raises); and if the
total weight is zero it returns the first point's `median_year`. -/
theorem claim_C2 (currentYear : ℕ) (pts : List ForecastPoint) :
    aggregate_forecasts currentYear pts =
      match pts with
      | [] => (currentYear : ℝ) + 25
      | p :: _ =>
        if totalWeight pts = 0 then (p.median_year : ℝ)
        else weightedSum pts / totalWeight pts := by
  match pts with
  | [] => rfl
  | p :: rest =>
    simp only [aggregate_forecasts, aggSums_eq]

/-- C3: for every non-empty bucket, the aggregated year lies in the closed
interval between the minimum and the maximum `median_year` of the bucket
(boundedness of the weighted mean). -/
theorem claim_C3 (currentYear : ℕ) (p : ForecastPoint) (rest : List ForecastPoint) :
    ((minMedian p rest : ℚ) : ℝ) ≤ aggregate_forecasts currentYear (p :: rest) ∧
      aggregate_forecasts currentYear (p :: rest) ≤ ((maxMedian p rest : ℚ) : ℝ) := by
  constructor
  · apply le_aggregate
    intro q hq
    exact_mod_cast minMedian_le p rest q hq
  · apply aggregate_le
    intro q hq
    exact_mod_cast le_maxMedian p rest q hq

/-- C6: the classifier puts a point in the singularity bucket exactly when
its lowercased question contains a singularity keyword, otherwise in the
asi bucket when it contains an asi keyword, otherwise in the agi bucket;
the singularity test runs first, so the concrete question containing both
"recursive self-improvement" and "superintelligence" lands in the
singularity bucket, not the asi bucket. -/
theorem claim_C6 (pts : List ForecastPoint) :
    ((classify pts).singularity = pts.filter isSingularityPoint ∧
      (classify pts).asi = pts.filter isAsiPoint ∧
      (classify pts).agi = pts.filter isAgiPoint) ∧
    (matchesAny SINGULARITY_KEYWORDS (lowerString bothKwPoint.question) = true ∧
      matchesAny ASI_KEYWORDS (lowerString bothKwPoint.question) = true ∧
      (classify [bothKwPoint]).singularity = [bothKwPoint] ∧
      (classify [bothKwPoint]).asi = [] ∧
      (classify [bothKwPoint]).agi = []) := by
  refine ⟨⟨classify_singularity_eq pts, classify_asi_eq pts, classify_agi_eq pts⟩, ?_⟩
  refine ⟨by decide, by decide, by decide, by decide, by decide⟩

/-- C10: after the ordering adjustment the three year values are strictly
ordered (the code adjusts on `≤`, so equality is never left standing at
the year level), yet two strictly ordered years can still render to the
same date string when they fall in the same calendar month. -/
theorem claim_C10 :
    (∀ a s g : ℝ, (fixYears a s g).1 < (fixYears a s g).2.1 ∧
      (fixYears a s g).2.1 < (fixYears a s g).2.2) ∧
    (∃ y1 y2 : ℝ, y1 < y2 ∧ year_to_date_string y1 = year_to_date_string y2) := by
  constructor
  · intro a s g
    exact ⟨fixYears_lt₁ a s g, fixYears_lt₂ a s g⟩
  · refine ⟨2030, 2030 + 1/24, by norm_num, ?_⟩
    have e1 : year_to_ym (2030 : ℝ) = (2030, 1) := by
      apply year_to_ym_eval (by norm_num) (by norm_num)
      · norm_num
      · norm_num
      · norm_num
    have e2 : year_to_ym ((2030 : ℝ) + 1/24) = (2030, 1) := by
      apply year_to_ym_eval (by norm_num) (by norm_num)
      · norm_num
      · norm_num
      · norm_num
    rw [year_to_date_string, year_to_date_string, e1, e2]

/-- C7: the confidence score of a bucket equals the fixed weighted blend
`100 × (0.3·min(1, n/50) + 0.3·min(1, d/3) + 0.4·max(0.3, 1 − sd/30))` and
lies in `[0, 100]`; the derived probability is the fixed `60.0` when the
sample size is below 2 and otherwise the confidence score clamped to
`[40.0, 95.0]`. -/
theorem claim_C7 (pts : List ForecastPoint) :
    (calculate_confidence_metrics pts).confidence_score =
      100 * (0.3 * min 1 (((calculate_confidence_metrics pts).sample_size : ℝ) / 50)
        + 0.3 * min 1 (((calculate_confidence_metrics pts).source_diversity : ℝ) / 3)
        + 0.4 * max 0.3 (1 - (calculate_confidence_metrics pts).std_deviation / 30)) ∧
    0 ≤ (calculate_confidence_metrics pts).confidence_score ∧
    (calculate_confidence_metrics pts).confidence_score ≤ 100 ∧
    ((calculate_confidence_metrics pts).sample_size < 2 →
      calculate_probability (calculate_confidence_metrics pts) = 60) ∧
    (2 ≤ (calculate_confidence_metrics pts).sample_size →
      calculate_probability (calculate_confidence_metrics pts) =
        max 40 (min 95 (calculate_confidence_metrics pts).confidence_score)) := by
  obtain ⟨mean, med, sd, hsd, hrep⟩ := calc_metrics_repr pts
  rw [hrep]
  refine ⟨?_, (mk_score_bounds mean med sd _ _ hsd).1,
    (mk_score_bounds mean med sd _ _ hsd).2, ?_, ?_⟩
  · rw [mk_confidence_score, mk_sample_size, mk_source_diversity, mk_std_deviation]
  · intro h
    rw [mk_sample_size] at h
    rw [calculate_probability, if_pos (by rw [mk_sample_size]; exact h)]
  · intro h
    rw [mk_sample_size] at h
    rw [calculate_probability, if_neg (by rw [mk_sample_size]; omega)]

/-- C7 witness: on the empty bucket the sample size is 0, so the
probability is the fixed 60. -/
theorem claim_C7_witness :
    (calculate_confidence_metrics ([] : List ForecastPoint)).sample_size < 2 ∧
    calculate_probability (calculate_confidence_metrics ([] : List ForecastPoint)) = 60 := by
  have h : (calculate_confidence_metrics ([] : List ForecastPoint)).sample_size < 2 := by
    show (0 : ℕ) < 2
    decide
  exact ⟨h, (claim_C7 []).2.2.2.1 h⟩

/-- C4: validation keeps exactly the points with `2025 ≤ median_year ≤
2200` (inclusive bounds: 2024 and 2201 rejected, 2025 accepted) and
`num_forecasters ≥ 0`, never modifying a point, and errors with a
`DataValidationError` naming the observed and required counts exactly when
fewer than `min_data_points` points survive; the error surfaces from
`generate_prediction` before any classification happens. -/
theorem claim_C4 (minPts : ℕ) (pts : List ForecastPoint) :
    ((∃ e, validateData minPts pts = .error e) ↔
      (pts.filter validPoint).length < minPts) ∧
    ((pts.filter validPoint).length < minPts →
      validateData minPts pts =
        .error (.dataValidation (pts.filter validPoint).length minPts)) ∧
    (minPts ≤ (pts.filter validPoint).length →
      validateData minPts pts = .ok (pts.filter validPoint)) ∧
    (∀ p : ForecastPoint, validPoint p = true ↔
      (2025 ≤ p.median_year ∧ p.median_year ≤ 2200 ∧ 0 ≤ p.num_forecasters)) ∧
    (validPoint { exPoint with median_year := 2024 } = false ∧
      validPoint { exPoint with median_year := 2025 } = true ∧
      validPoint { exPoint with median_year := 2201 } = false) ∧
    (∀ (currentYear : ℕ) (ts : String) (e : PredictionErr),
      validateData minPts pts = .error e →
      generate_prediction_from_points minPts currentYear ts pts = .error e) := by
  refine ⟨?_, ?_, ?_, validPoint_iff, ⟨by decide, by decide, by decide⟩, ?_⟩
  · by_cases h : (pts.filter validPoint).length < minPts
    · simp [validateData, h]
    · simp [validateData, h]
  · intro h
    simp [validateData, h]
  · intro h
    have h' : ¬(pts.filter validPoint).length < minPts := not_lt.mpr h
    simp [validateData, h']
  · intro currentYear ts e h
    simp [generate_prediction_from_points, h]

/-- C4 witness: with the default minimum of 1, the empty input fails
validation with the counts 0 observed / 1 required, and the error
propagates out of prediction generation. -/
theorem claim_C4_witness :
    validateData 1 ([] : List ForecastPoint) = .error (.dataValidation 0 1) ∧
    generate_prediction_from_points 1 2025 "2025-01-01T00:00:00" [] =
      .error (.dataValidation 0 1) := by
  have h1 : (([] : List ForecastPoint).filter validPoint).length < 1 := by decide
  have h2 := (claim_C4 1 []).2.1 h1
  exact ⟨h2, (claim_C4 1 []).2.2.2.2.2 2025 "2025-01-01T00:00:00" _ h2⟩

/-- C5 counterexample: at `Y = -1 + 1/2` (so `yr = -1`, `f = 1/2` in the
claim's decomposition) the code returns `"0-01-01"` because Python `int()`
truncates toward zero, not the `"-1-07-01"` the claimed formula yields. -/
theorem claim_C5_counterexample :
    year_to_date_string ((-1 : ℝ) + 1/2) = "0-01-01" ∧
    year_to_date_string ((-1 : ℝ) + 1/2) ≠
      toString (-1 : ℤ) ++ "-" ++ pad2 (max 1 (min 12 (⌊(1/2 : ℝ) * 12⌋ + 1))) ++ "-01" := by
  have hym : year_to_ym ((-1 : ℝ) + 1/2) = (0, 1) := by
    have h1 : pyInt ((-1 : ℝ) + 1/2) = 0 := by
      rw [pyInt_of_neg (by norm_num)]
      norm_num
    have h2 : pyInt ((((-1 : ℝ) + 1/2) - ((0 : ℤ) : ℝ)) * 12) = -6 := by
      rw [pyInt_of_neg (by norm_num)]
      rw [show ((((-1 : ℝ) + 1/2) - ((0 : ℤ) : ℝ)) * 12) = ((-6 : ℤ) : ℝ) by norm_num]
      exact Int.ceil_intCast (-6)
    rw [year_to_ym]
    rw [h1, h2]
    decide
  have hfl : (⌊(1/2 : ℝ) * 12⌋ : ℤ) = 6 := by norm_num
  constructor
  · rw [year_to_date_string, hym]
    decide
  · rw [year_to_date_string, hym, hfl]
    decide

/-- C5 (amended): for every fractional year `Y = yr + f` with `yr ≥ 0` and
`0 ≤ f < 1`, the conversion returns `"yr-MM-01"` with
`MM = clamp(1, 12, floor(f × 12) + 1)` (for negative years Python `int()`
truncates toward zero, so the formula only holds for nonnegative years);
in particular the three specified example conversions hold. -/
theorem claim_C5_amended :
    (∀ (yr : ℤ) (f : ℝ), 0 ≤ yr → 0 ≤ f → f < 1 →
      year_to_date_string ((yr : ℝ) + f) =
        toString yr ++ "-" ++ pad2 (max 1 (min 12 (⌊f * 12⌋ + 1))) ++ "-01") ∧
    year_to_date_string (2030 : ℝ) = "2030-01-01" ∧
    year_to_date_string (2030.5 : ℝ) = "2030-07-01" ∧
    year_to_date_string (2030.999 : ℝ) = "2030-12-01" := by
  refine ⟨?_, ?_, ?_, ?_⟩
  · intro yr f hyr hf0 hf1
    have h0 : (0 : ℝ) ≤ (yr : ℝ) + f := by
      have : (0 : ℝ) ≤ (yr : ℝ) := by exact_mod_cast hyr
      linarith
    have hffl : ⌊f⌋ = 0 := Int.floor_eq_zero_iff.mpr ⟨hf0, hf1⟩
    have hfl : ⌊(yr : ℝ) + f⌋ = yr := by
      rw [add_comm, Int.floor_add_int, hffl, zero_add]
    have hm0 : (0 : ℤ) ≤ ⌊f * 12⌋ := Int.floor_nonneg.mpr (by positivity)
    have hm12 : ⌊f * 12⌋ < 12 := by
      rw [Int.floor_lt]
      push_cast
      linarith
    have hym : year_to_ym ((yr : ℝ) + f) = (yr, ⌊f * 12⌋ + 1) := by
      apply year_to_ym_eval h0 hfl
      · have : ((yr : ℝ) + f) - (yr : ℝ) = f := by ring
        rw [this]
      · omega
      · omega
    have hclamp : max 1 (min 12 (⌊f * 12⌋ + 1)) = ⌊f * 12⌋ + 1 := by omega
    rw [year_to_date_string, hym, hclamp]
    rfl
  · have e : year_to_ym (2030 : ℝ) = (2030, 1) :=
      year_to_ym_eval (by norm_num) (by norm_num) (by norm_num) (by norm_num) (by norm_num)
    rw [year_to_date_string, e]
    decide
  · have e : year_to_ym (2030.5 : ℝ) = (2030, 7) :=
      year_to_ym_eval (by norm_num) (by norm_num) (by norm_num) (by norm_num) (by norm_num)
    rw [year_to_date_string, e]
    decide
  · have e : year_to_ym (2030.999 : ℝ) = (2030, 12) :=
      year_to_ym_eval (by norm_num) (by norm_num) (by norm_num) (by norm_num) (by norm_num)
    rw [year_to_date_string, e]
    decide

/-- C5 witness: the amended formula applied at `yr = 2030`, `f = 1/2`. -/
theorem claim_C5_witness :
    (0 : ℤ) ≤ 2030 ∧ (0 : ℝ) ≤ 1/2 ∧ (1/2 : ℝ) < 1 ∧
    year_to_date_string (((2030 : ℤ) : ℝ) + 1/2) =
      toString (2030 : ℤ) ++ "-" ++ pad2 (max 1 (min 12 (⌊(1/2 : ℝ) * 12⌋ + 1))) ++ "-01" :=
  ⟨by norm_num, by norm_num, by norm_num,
    claim_C5_amended.1 2030 (1/2) (by norm_num) (by norm_num) (by norm_num)⟩

/-- C8: with a positive TTL, a non-forced fetch that finds a cache entry of
age at most the TTL returns the cached data without invoking the adapters;
a non-forced fetch from the empty cache invokes them and caches the result,
so a second non-forced call within the TTL does not invoke them again,
while a call after more than the TTL has elapsed does; with TTL 0 every
call invokes the adapters and the cache state never changes. -/
theorem claim_C8 (ttl : ℤ) (force : Bool) (now now2 now3 ts : ℚ)
    (live live2 live3 d : List ForecastPoint) (cache : Option CacheEntry) :
    (0 < ttl → now - ts ≤ (ttl : ℚ) →
      fetch_data ttl false now live (some ⟨d, ts⟩) = ⟨.ok d, some ⟨d, ts⟩, false⟩) ∧
    (0 < ttl → live ≠ [] →
      fetch_data ttl false now live none = ⟨.ok live, some ⟨live, now⟩, true⟩) ∧
    (0 < ttl → live ≠ [] → now2 - now ≤ (ttl : ℚ) →
      fetch_data ttl false now2 live2 ((fetch_data ttl false now live none).cache) =
        ⟨.ok live, some ⟨live, now⟩, false⟩) ∧
    (0 < ttl → live ≠ [] → (ttl : ℚ) < now3 - now →
      (fetch_data ttl false now3 live3
        ((fetch_data ttl false now live none).cache)).invokedAdapters = true) ∧
    ((fetch_data 0 force now live cache).invokedAdapters = true ∧
      (fetch_data 0 force now live cache).cache = cache) := by
  have hit : ∀ (e : CacheEntry) (t : ℚ) (l : List ForecastPoint), 0 < ttl →
      t - e.timestamp ≤ (ttl : ℚ) →
      fetch_data ttl false t l (some e) = ⟨.ok e.data, some e, false⟩ := by
    intro e t l h1 h2
    have hexp : e.is_expired ttl t = false := by
      simp only [CacheEntry.is_expired, decide_eq_false_iff_not]
      exact not_lt.mpr h2
    simp [fetch_data, hexp, h1]
  have fresh : ∀ (hl : live ≠ []) (h1 : 0 < ttl),
      fetch_data ttl false now live none = ⟨.ok live, some ⟨live, now⟩, true⟩ := by
    intro hl h1
    show fetchFresh ttl now live none = _
    rw [fetchFresh, if_neg hl, if_pos h1]
  refine ⟨?_, ?_, ?_, ?_, ?_⟩
  · intro h1 h2
    exact hit ⟨d, ts⟩ now live h1 h2
  · intro h1 hl
    exact fresh hl h1
  · intro h1 hl h2
    rw [fresh hl h1]
    exact hit ⟨live, now⟩ now2 live2 h1 h2
  · intro h1 hl h3
    rw [fresh hl h1]
    have hexp : (CacheEntry.mk live now).is_expired ttl now3 = true := by
      simp only [CacheEntry.is_expired, decide_eq_true_eq]
      exact h3
    show (fetch_data ttl false now3 live3 (some ⟨live, now⟩)).invokedAdapters = true
    simp [fetch_data, hexp, fetchFresh_invoked]
  · have hz : ¬(0 : ℤ) < 0 := by norm_num
    cases cache with
    | none =>
      exact ⟨fetchFresh_invoked 0 now live none,
        fetchFresh_cache_of_ttl_nonpos hz now live none⟩
    | some e =>
      have hred : fetch_data 0 force now live (some e) = fetchFresh 0 now live (some e) := by
        simp only [fetch_data]
        split
        · rename_i hcond
          exact absurd hcond.2.1 hz
        · rfl
      rw [hred]
      exact ⟨fetchFresh_invoked 0 now live (some e),
        fetchFresh_cache_of_ttl_nonpos hz now live (some e)⟩

/-- C8 witness: TTL 300, a fetch at time 0, a hit at time 100, an expired
call at time 301, and a TTL-0 call. -/
theorem claim_C8_witness :
    fetch_data 300 false 0 [exPoint] none = ⟨.ok [exPoint], some ⟨[exPoint], 0⟩, true⟩ ∧
    fetch_data 300 false 100 [] ((fetch_data 300 false 0 [exPoint] none).cache) =
      ⟨.ok [exPoint], some ⟨[exPoint], 0⟩, false⟩ ∧
    (fetch_data 300 false 301 []
      ((fetch_data 300 false 0 [exPoint] none).cache)).invokedAdapters = true ∧
    (fetch_data 0 false 50 [exPoint] none).invokedAdapters = true := by
  obtain ⟨-, h2, h3, h4, -⟩ :=
    claim_C8 300 false 0 100 301 0 [exPoint] [] [] [] none
  refine ⟨h2 (by norm_num) (by decide), h3 (by norm_num) (by decide) (by norm_num),
    h4 (by norm_num) (by decide) (by norm_num), ?_⟩
  exact (claim_C8 0 false 50 0 0 0 [exPoint] [] [] [] none).2.2.2.2.1

/-- C9: when the adapters are invoked and return the empty list,
`fetch_data` fails with a `DataFetchError` and leaves the cache unchanged;
in particular from the empty cache state the cache stays empty and
`generate_prediction` fails with the same `DataFetchError`. -/
theorem claim_C9 (ttl : ℤ) (force : Bool) (now : ℚ) (cache : Option CacheEntry)
    (minPts currentYear : ℕ) (ts : String) :
    ((fetch_data ttl force now [] cache).invokedAdapters = true →
      (fetch_data ttl force now [] cache).result = .error .dataFetch ∧
      (fetch_data ttl force now [] cache).cache = cache) ∧
    fetch_data ttl force now [] none = ⟨.error .dataFetch, none, true⟩ ∧
    generate_prediction ttl minPts force now [] none currentYear ts =
      (.error .dataFetch, none) := by
  have hfresh : ∀ c, fetchFresh ttl now [] c = ⟨.error .dataFetch, c, true⟩ := by
    intro c
    rw [fetchFresh, if_pos rfl]
  refine ⟨?_, hfresh none, ?_⟩
  · cases cache with
    | none =>
      intro _
      rw [show fetch_data ttl force now [] none = fetchFresh ttl now [] none from rfl,
        hfresh none]
      exact ⟨rfl, rfl⟩
    | some e =>
      simp only [fetch_data]
      split
      · intro h
        exact absurd h (by simp)
      · rw [hfresh (some e)]
        intro _
        exact ⟨rfl, rfl⟩
  · have h2 : fetch_data ttl force now [] none = ⟨.error .dataFetch, none, true⟩ :=
      hfresh none
    simp [generate_prediction, h2]

/-- Projection of the ordering fix: the adjusted asi year. -/
theorem fixYears_snd_fst (a s g : ℝ) :
    (fixYears a s g).2.1 = if s ≤ a then a + 5 else s := rfl

/-- Projection of the ordering fix: the adjusted singularity year. -/
theorem fixYears_snd_snd (a s g : ℝ) :
    (fixYears a s g).2.2 =
      if g ≤ (if s ≤ a then a + 5 else s) then (if s ≤ a then a + 5 else s) + 15
      else g := rfl

theorem validate_ex : validateData 1 [exPoint] = .ok [exPoint] := by
  simp only [validateData]
  rw [show [exPoint].filter validPoint = [exPoint] from by decide]
  rw [if_neg (by norm_num)]

theorem agiBucket_ex : agiBucket [exPoint] = [exPoint] := by decide

theorem asiBucket_ex : asiBucket [exPoint] = [exPoint] := by decide

theorem singBucket_ex : singBucket [exPoint] = [exPoint] := by decide

theorem pointWeight_ex : pointWeight exPoint = 1 := by
  have h : ((max 1 exPoint.num_forecasters : ℤ) : ℝ) = 1 := by norm_num [exPoint]
  rw [pointWeight, h, Real.sqrt_one]

theorem aggregate_ex (currentYear : ℕ) :
    aggregate_forecasts currentYear [exPoint] = 2030 := by
  have h1 : weightedSum [exPoint] = 2030 := by
    rw [weightedSum]
    simp [pointWeight_ex]
    norm_num [exPoint]
  have h2 : totalWeight [exPoint] = 1 := by
    rw [totalWeight]
    simp [pointWeight_ex]
  rw [aggregate_cons_eq, h1, h2]
  norm_num

theorem fix_ex1 : (fixYears (2030 : ℝ) 2030 2030).1 = 2030 := rfl

theorem fix_ex2 : (fixYears (2030 : ℝ) 2030 2030).2.1 = 2035 := by
  rw [fixYears_snd_fst, if_pos (le_refl (2030 : ℝ))]
  norm_num

theorem fix_ex3 : (fixYears (2030 : ℝ) 2030 2030).2.2 = 2050 := by
  rw [fixYears_snd_snd, if_pos (le_refl (2030 : ℝ))]
  rw [if_pos (by norm_num : (2030 : ℝ) ≤ 2030 + 5)]
  norm_num

theorem prob_ex : calculate_probability (calculate_confidence_metrics [exPoint]) = 60 := by
  have hs : (calculate_confidence_metrics [exPoint]).sample_size = 1 := rfl
  rw [calculate_probability, if_pos (by rw [hs]; norm_num)]

theorem round_ex : pyRound1 60 = 60 := by
  rw [pyRound1, show ((60 : ℝ) * 10) = ((600 : ℤ) : ℝ) by norm_num, round_intCast]
  norm_num

theorem consensus_ex : determine_consensus_type [exPoint] = .expertSurvey := by decide

theorem takeoff_ex : TakeoffScenario.from_year_gap ((2035 : ℝ) - 2030) = .moderate := by
  rw [TakeoffScenario.from_year_gap]
  rw [if_neg (by norm_num), if_pos (by norm_num)]

theorem ym_2030 : year_to_ym (2030 : ℝ) = (2030, 1) :=
  year_to_ym_eval (by norm_num) (by norm_num) (by norm_num) (by norm_num) (by norm_num)

theorem ym_2035 : year_to_ym (2035 : ℝ) = (2035, 1) :=
  year_to_ym_eval (by norm_num) (by norm_num) (by norm_num) (by norm_num) (by norm_num)

theorem ym_2050 : year_to_ym (2050 : ℝ) = (2050, 1) :=
  year_to_ym_eval (by norm_num) (by norm_num) (by norm_num) (by norm_num) (by norm_num)

theorem buildPrediction_ex (currentYear : ℕ) (ts : String) :
    buildPrediction currentYear ts [exPoint] = exPrediction ts := by
  simp only [buildPrediction, agiBucket_ex, asiBucket_ex, singBucket_ex, aggregate_ex,
    fix_ex1, fix_ex2, fix_ex3, prob_ex, round_ex, consensus_ex, takeoff_ex,
    ConsensusType.val, TakeoffScenario.val, year_to_date_string, ym_2030, ym_2035,
    ym_2050, exPrediction]
  rw [show ymString (2030, 1) = "2030-01-01" from by decide,
    show ymString (2035, 1) = "2035-01-01" from by decide,
    show ymString (2050, 1) = "2050-01-01" from by decide]

theorem generate_ex (currentYear : ℕ) (ts : String) :
    generate_prediction_from_points 1 currentYear ts [exPoint] = .ok (exPrediction ts) := by
  simp [generate_prediction_from_points, validate_ex, buildPrediction_ex]

/-- C1: for every input forecast set, a `Prediction` produced by
`generate_prediction` has `agi_date ≤ asi_date ≤ singularity_date` as
calendar dates, because after independent aggregation the engine silently
forces `asi_year = agi_year + 5` when `asi_year ≤ agi_year`, and then
`singularity_year = asi_year + 15` when `singularity_year ≤` the possibly
adjusted `asi_year`, with no error raised (the correction is total). -/
theorem claim_C1 :
    (∀ a s g : ℝ,
      (s ≤ a → (fixYears a s g).2.1 = a + 5) ∧
      (g ≤ (fixYears a s g).2.1 → (fixYears a s g).2.2 = (fixYears a s g).2.1 + 15)) ∧
    (∀ (minPts currentYear : ℕ) (ts : String) (raw : List ForecastPoint)
      (pred : Prediction),
      generate_prediction_from_points minPts currentYear ts raw = .ok pred →
      ∃ ymA ymS ymG : ℤ × ℤ,
        pred.agi_date = ymString ymA ∧ pred.asi_date = ymString ymS ∧
        pred.singularity_date = ymString ymG ∧ dateLE ymA ymS ∧ dateLE ymS ymG) := by
  constructor
  · intro a s g
    constructor
    · intro h
      rw [fixYears_snd_fst, if_pos h]
    · intro h
      rw [fixYears_snd_fst] at h
      rw [fixYears_snd_snd, if_pos h, fixYears_snd_fst]
  · intro minPts cy ts raw pred h
    obtain ⟨points, hv, hpred⟩ := generate_from_points_ok h
    have hvalid : ∀ q ∈ points, validPoint q = true := by
      intro q hq
      rw [validateData_ok_eq hv] at hq
      exact List.of_mem_filter hq
    have h0A : 0 ≤ aggregate_forecasts cy (agiBucket points) := by
      apply aggregate_nonneg
      intro q hq
      have h2025 := ((validPoint_iff q).mp (hvalid q (mem_agiBucket hq))).1
      have hc : ((2025 : ℚ) : ℝ) ≤ (q.median_year : ℝ) := by exact_mod_cast h2025
      have hz : (0 : ℝ) ≤ ((2025 : ℚ) : ℝ) := by norm_num
      linarith
    subst hpred
    refine ⟨year_to_ym (fixYears (aggregate_forecasts cy (agiBucket points))
        (aggregate_forecasts cy (asiBucket points))
        (aggregate_forecasts cy (singBucket points))).1,
      year_to_ym (fixYears (aggregate_forecasts cy (agiBucket points))
        (aggregate_forecasts cy (asiBucket points))
        (aggregate_forecasts cy (singBucket points))).2.1,
      year_to_ym (fixYears (aggregate_forecasts cy (agiBucket points))
        (aggregate_forecasts cy (asiBucket points))
        (aggregate_forecasts cy (singBucket points))).2.2,
      rfl, rfl, rfl, ?_, ?_⟩
    · apply dateLE_year_to_ym
      · rw [fixYears_fst]
        exact h0A
      · rw [fixYears_fst]
        exact le_of_lt (fixYears_lt₁ _ _ _)
    · apply dateLE_year_to_ym
      · exact le_of_lt (lt_of_le_of_lt h0A (fixYears_lt₁ _ _ _))
      · exact le_of_lt (fixYears_lt₂ _ _ _)

/-- C1 witness: the engine run on the single point `exPoint` succeeds and
its three dates are calendar-ordered. -/
theorem claim_C1_witness :
    generate_prediction_from_points 1 2025 "2025-06-01T00:00:00" [exPoint] =
      .ok (exPrediction "2025-06-01T00:00:00") ∧
    (∃ ymA ymS ymG : ℤ × ℤ,
      (exPrediction "2025-06-01T00:00:00").agi_date = ymString ymA ∧
      (exPrediction "2025-06-01T00:00:00").asi_date = ymString ymS ∧
      (exPrediction "2025-06-01T00:00:00").singularity_date = ymString ymG ∧
      dateLE ymA ymS ∧ dateLE ymS ymG) := by
  have h := generate_ex 2025 "2025-06-01T00:00:00"
  exact ⟨h, claim_C1.2 1 2025 "2025-06-01T00:00:00" [exPoint] _ h⟩

/-- C9 witness: all adapters empty at TTL 300 from the empty cache. -/
theorem claim_C9_witness :
    (fetch_data 300 false 0 [] none).invokedAdapters = true ∧
    (fetch_data 300 false 0 [] none).result = .error .dataFetch ∧
    (fetch_data 300 false 0 [] none).cache = none ∧
    generate_prediction 300 1 false 0 [] none 2025 "2025-01-01T00:00:00" =
      (.error .dataFetch, none) := by
  have hinv : (fetch_data 300 false 0 ([] : List ForecastPoint) none).invokedAdapters = true := by
    decide
  obtain ⟨h1, -, h3⟩ := claim_C9 300 false 0 none 1 2025 "2025-01-01T00:00:00"
  exact ⟨hinv, (h1 hinv).1, (h1 hinv).2, h3⟩

end AIOracle
